import Mathlib

/-!
Verification of the Korea ISBN metadata plugin (single Python source file).

The embedding models the pure string-processing core (text normalizer, URL
builders) directly, and the two effectful lookup operations (`identify`,
`download_cover`) as functions over the results of their external
collaborators: the HTTP fetch outcomes are passed in as `Except` values, the
host date parser as a function argument, and the delivered records are
returned as an explicit queue together with the list of logged exceptions.

Python strings are modelled as Lean `String`; Python `dict[str, str]` as an
association list `Dict` with first-match lookup (Python dict keys are unique,
so first-match lookup agrees with dict lookup); `None` as `Option.none`;
a raised exception as an `Err` value.
-/

/-- Python dictionary from string to string, as an association list. -/
abbrev Dict : Type := List (String × String)

/-- Embeds Python `d.get(k)`: the value at the first matching key, else `None`. -/
def dget (d : Dict) (k : String) : Option String :=
  (List.find? (fun p => p.1 == k) d).map (fun p => p.2)

/-- Python truthiness of an optional string: `None` and `""` are falsy. -/
def truthy : Option String → Bool
  | none => false
  | some s => s ≠ ""

/-- Embeds the Python expression `a or b` on optional strings: `b` when `a` is falsy. -/
def pyOr (a b : Option String) : Option String :=
  if truthy a then a else b

/-- Tests whether `pat` is a prefix of `l` (helper for substring search). -/
def matchAt (pat l : List Char) : Bool :=
  match pat, l with
  | [], _ => true
  | _ :: _, [] => false
  | p :: ps, c :: cs => p == c && matchAt ps cs

/-- Tests whether `pat` occurs as a contiguous substring of `l`. -/
def occursIn (pat : List Char) : List Char → Bool
  | [] => pat.isEmpty
  | c :: cs => matchAt pat (c :: cs) || occursIn pat cs

/-- Embeds the Python expression `keyword in item` (substring containment). -/
def strIn (pat s : String) : Bool := occursIn pat.data s.data

/-- Left-to-right non-overlapping replacement, skipping `skip` chars after a match
(helper for `replaceAll`; `skip` tracks the tail of a match already emitted). -/
def replaceAllAux (pat repl : List Char) (skip : Nat) : List Char → List Char
  | [] => []
  | c :: cs =>
    match skip with
    | Nat.succ s => replaceAllAux pat repl s cs
    | 0 =>
      if pat ≠ [] ∧ matchAt pat (c :: cs) then
        repl ++ replaceAllAux pat repl (pat.length - 1) cs
      else
        c :: replaceAllAux pat repl 0 cs

/-- Embeds Python `s.replace(pat, repl)`: replace every non-overlapping
occurrence of `pat`, scanning left to right. -/
def replaceAll (pat repl l : List Char) : List Char := replaceAllAux pat repl 0 l

/-- Embeds Python `s.strip()`: drop leading and trailing whitespace. -/
def pyStrip (s : String) : String :=
  String.mk (((s.data.dropWhile Char.isWhitespace).reverse.dropWhile Char.isWhitespace).reverse)

/-- Splits a character list at every delimiter character, keeping empty
segments, with `acc` the (reversed) segment being accumulated: the semantics
of Python `re.split` with a single character class. -/
def splitAux (delims : List Char) : List Char → List Char → List (List Char)
  | [], acc => [acc.reverse]
  | c :: cs, acc =>
    if c ∈ delims then acc.reverse :: splitAux delims cs []
    else splitAux delims cs (c :: acc)

/-- Embeds Python `re.split(pattern='[..]', string=s)` for a character-class
pattern: `n` delimiter occurrences yield `n + 1` segments, empties kept. -/
def re_split (delims : List Char) (s : String) : List String :=
  (splitAux delims s.data []).map String.mk

/-- Embeds Python `sep.join(parts)`. -/
def str_join (sep : String) : List String → String
  | [] => ""
  | [x] => x
  | x :: y :: xs => x ++ sep ++ str_join sep (y :: xs)

/-- Embeds Python `s.lstrip(chars)`: drop leading characters that belong to the
character set of `chars` (a set trim, not a literal-prefix removal). -/
def pyLstrip (s chars : String) : String :=
  String.mk (s.data.dropWhile (fun c => c ∈ chars.data))

/-- Embeds `remove_empty_strings` (src lines 11-16): keep truthy, i.e. non-empty,
entries, order preserved. -/
def remove_empty_strings (items : List String) : List String :=
  items.filter (fun item => item ≠ "")

/-- Embeds `filter_not_include` (src lines 19-25): keep an entry only when none
of the keywords occurs in it as a substring. -/
def filter_not_include (items keywords : List String) : List String :=
  items.filter (fun item => keywords.all (fun keyword => !(strIn keyword item)))

/-- Embeds `remove_keywords_in_string` (src lines 28-37): delete every
occurrence of each keyword in turn. -/
def remove_keywords_in_string (item : String) (keywords : List String) : String :=
  keywords.foldl (fun acc keyword => String.mk (replaceAll keyword.data [] acc.data)) item

/-- Embeds `remove_keywords_in_strings` (src lines 40-46). -/
def remove_keywords_in_strings (items keywords : List String) : List String :=
  items.map (fun item => remove_keywords_in_string item keywords)

/-- Embeds `trim_whitespaces_in_strings` (src lines 49-54). -/
def trim_whitespaces_in_strings (items : List String) : List String :=
  items.map pyStrip

/-- Embeds `get_isbn` (src lines 57-65): `None` when the identifiers are absent
or have no `"isbn"` entry, else the isbn value up to the first `(` or space,
i.e. `re.split(pattern='[( ]', ...)[0]`. -/
def get_isbn (identifiers : Option Dict) : Option String :=
  match identifiers with
  | none => none
  | some d =>
    match dget d "isbn" with
    | none => none
    | some v => some ((re_split ['(', ' '] v).headD "")

/-- Embeds `get_book_query` (src lines 68-73). -/
def get_book_query (isbn : String) : String :=
  str_join "&" [str_join "=" ["schM", "intgr_detail_view_isbn"], str_join "=" ["isbn", isbn]]

namespace NationalLibraryOfKoreaMetadataPlugin

/-- Embeds `get_book_json_query` (src lines 295-306), with the configured
`api_key` preference passed explicitly: the five query parameters joined with
`&`, each a `=`-join of name and value. -/
def get_book_json_query (api_key isbn : String) : String :=
  str_join "&" [
    str_join "=" ["cert_key", api_key],
    str_join "=" ["result_style", "json"],
    str_join "=" ["page_no", "1"],
    str_join "=" ["page_size", "1"],
    str_join "=" ["isbn", isbn]
  ]

/-- Embeds `get_book_json_url` (src lines 271-281): `None` when the identifiers
are absent or have no `"isbn"` entry, else the triple
`("isbn", isbn, base-query-url)`. -/
def get_book_json_url (api_key : String) (identifiers : Option Dict) :
    Option (String × String × String) :=
  match identifiers with
  | none => none
  | some d =>
    match dget d "isbn" with
    | none => none
    | some _ =>
      let isbn := (get_isbn (some d)).getD ""
      some ("isbn", isbn,
        "https://www.nl.go.kr/seoji/SearchApi.do?" ++ get_book_json_query api_key isbn)

/-- Embeds `get_book_url` (src lines 283-293): `None` when the identifiers are
absent or have no `"isbn"` entry, else the triple for the detail page. -/
def get_book_url (identifiers : Option Dict) : Option (String × String × String) :=
  match identifiers with
  | none => none
  | some d =>
    match dget d "isbn" with
    | none => none
    | some _ =>
      let isbn := (get_isbn (some d)).getD ""
      some ("isbn", isbn,
        "https://nl.go.kr/seoji/contents/S80100000000.do?" ++ get_book_query isbn)

end NationalLibraryOfKoreaMetadataPlugin

/-- Parses a URL query string back into key-value pairs: split on `&`, then
each pair at its first `=` (checker for the round-trip property of C4). -/
def parse_query (q : String) : List (String × String) :=
  (re_split ['&'] q).map (fun p =>
    ((re_split ['='] p).headD "", str_join "=" ((re_split ['='] p).tail)))

/-- Extracts the query string of a URL: everything after the first `?`. -/
def query_of (url : String) : String :=
  str_join "?" ((re_split ['?'] url).tail)

/-- Exceptions raised by the modelled operations. `typeError` stands for the
Python `TypeError` of subscripting `None`; `indexError` for indexing an empty
list; `dateParse` for a failure of the host date parser; `ext` for an
exception of an external collaborator (fetch, JSON decode, HTML parse),
carried through from the stage inputs; `raisedString` for the
`raise "book_url is None"` statement. -/
inductive Err where
  | typeError : Err
  | indexError : Err
  | dateParse : Err
  | ext : String → Err
  | raisedString : String → Err
deriving DecidableEq, Repr

/-- The calibre metadata record, restricted to the fields this plugin touches.
Identifiers are an insertion-ordered association list; every other field is
`none` until assigned. -/
structure Metadata where
  title : Option String := none
  authors : Option (List String) := none
  publisher : Option String := none
  pubdate : Option String := none
  series : Option String := none
  series_index : Option String := none
  identifiers : Dict := []
  tags : Option (List String) := none
  languages : Option (List String) := none
  comments : Option String := none
deriving DecidableEq, Repr

/-- Modelled from the spec: the host collaborator `Metadata.set_identifier`.
A falsy value leaves the record unchanged (the field is omitted from the
output, per the degrade-gracefully invariant of the data model); a truthy
value records the identifier under its type. -/
def set_identifier (mi : Metadata) (typ : String) (val : Option String) : Metadata :=
  if truthy val then { mi with identifiers := mi.identifiers ++ [(typ, val.getD "")] }
  else mi

/-- Modelled from the spec: the host collaborator `clean_downloaded_metadata`,
a "generic metadata-cleanup pass" to which the spec ascribes no field change,
so it is the identity on the assembled record. -/
def clean_downloaded_metadata (mi : Metadata) : Metadata := mi

/-- Embeds `get_book_json` (src lines 308-316) over the outcome of its fetch
and JSON decode: `resp` is `Except.error` when the fetch or `json.loads`
raised, else `Except.ok` with the optional `docs` array of the decoded
object. `json.loads(contents).get("docs")[0]` then raises `TypeError` when
`docs` is absent (`None[0]`) and `IndexError` when it is empty. -/
def get_book_json (resp : Except Err (Option (List Dict))) : Except Err Dict :=
  match resp with
  | Except.error e => Except.error e
  | Except.ok none => Except.error Err.typeError
  | Except.ok (some []) => Except.error Err.indexError
  | Except.ok (some (d :: _)) => Except.ok d

/-- The author pipeline inlined in `identify` (src lines 130-141): split on
`[/,;]`, drop entries containing a blacklisted keyword, strip the
stripping keywords, trim whitespace, drop empties. -/
def author_pipeline (raw : String) : List String :=
  remove_empty_strings
    (trim_whitespaces_in_strings
      (remove_keywords_in_strings
        (filter_not_include (re_split ['/', ',', ';'] raw) ["옮김", "엮은이", "역자"])
        ["지은이", ":", "저자", "작가", "지음"]))

/-- The tag pipeline inlined in `identify` (src lines 171-180): split on
`[,;]`, strip `"TAG"` and `":"`, trim whitespace, drop empties; no
substring-blacklist filtering step. -/
def tag_pipeline (raw : String) : List String :=
  remove_empty_strings
    (trim_whitespaces_in_strings
      (remove_keywords_in_strings (re_split [',', ';'] raw) ["TAG", ":"]))

/-- The outcome of one `identify` or `download_cover` call: the records put on
the result queue and the exceptions passed to `log.exception`. -/
structure IdentifyOut where
  queue : List Metadata
  logged : List Err
deriving DecidableEq, Repr

namespace NationalLibraryOfKoreaMetadataPlugin

/-- Embeds `identify` (src lines 108-212) over the outcomes of its external
collaborators: `strptime` is the host date parser (src line 151), `api_key`
the configured preference, `jsonResp` the outcome of fetching and JSON-decoding
the search API response (consumed by `get_book_json`), and `detailResp` the
outcome of `get_book_info` (fetch plus HTML parse of the detail page, an
`Except.error` when any of that raised). Mirrors the try/except structure: the
outer try catches everything and logs it; the Stage-2 try catches the detail
stage; the per-field tries around pubdate (the only field whose assembly can
raise in this model) are local. Returns the queue contents and the logged
exceptions; the function is total, so no exception escapes to the caller. -/
def identify (strptime : String → Except Unit String) (api_key : String)
    (identifiers : Option Dict) (jsonResp : Except Err (Option (List Dict)))
    (detailResp : Except Err Dict) : IdentifyOut :=
  let ids : Dict := identifiers.getD []
  match get_book_json_url api_key (some ids) with
  | none => { queue := [], logged := [Err.typeError] }
  | some _ =>
    match get_book_json jsonResp with
    | Except.error e => { queue := [], logged := [e] }
    | Except.ok book_json =>
      let authors : Option (List String) :=
        if truthy (dget book_json "AUTHOR") then
          some (author_pipeline ((dget book_json "AUTHOR").getD ""))
        else none
      let pubres : Option String × List Err :=
        if truthy (dget book_json "REAL_PUBLISH_DATE") ||
            truthy (dget book_json "PUBLISH_PREDATE") then
          match strptime ((pyOr (dget book_json "REAL_PUBLISH_DATE")
              (dget book_json "PUBLISH_PREDATE")).getD "") with
          | Except.ok dv => (some dv, [])
          | Except.error _ => (none, [Err.dateParse])
        else (none, [])
      let mi1 : Metadata :=
        { title := dget book_json "TITLE"
          authors := authors
          publisher := dget book_json "PUBLISHER"
          pubdate := pubres.1
          series := dget book_json "SERIES_TITLE"
          series_index := dget book_json "SERIES_NO" }
      let mi2 : Metadata :=
        set_identifier (set_identifier mi1 "isbn" (dget book_json "EA_ISBN"))
          "isbn_add_code" (dget book_json "EA_ADD_CODE")
      let stage2 : Metadata × List Err :=
        match get_book_url (some ids) with
        | none => (mi2, [Err.raisedString "book_url is None"])
        | some _ =>
          match detailResp with
          | Except.error e => (mi2, [e])
          | Except.ok book_info =>
            let miT : Metadata :=
              if truthy (dget book_info "키워드") then
                { mi2 with tags := some (tag_pipeline ((dget book_info "키워드").getD "")) }
              else mi2
            let miD : Metadata :=
              if truthy (dget book_info "DOI") then
                set_identifier miT "doi"
                  (some (pyLstrip ((dget book_info "DOI").getD "") "https://doi.org/"))
              else miT
            let miL : Metadata :=
              if truthy (dget book_info "형태 및 본문언어") ||
                  truthy (dget book_info "서비스형태 및 본문언어") then
                { miD with languages := some [pyStrip ((re_split ['/']
                    ((pyOr (dget book_info "형태 및 본문언어")
                      (dget book_info "서비스형태 및 본문언어")).getD "")).getLastD "")] }
              else miD
            let miC : Metadata :=
              if truthy (dget book_info "comments") then
                { miL with comments := dget book_info "comments" }
              else miL
            (miC, [])
      { queue := [clean_downloaded_metadata stage2.1], logged := pubres.2 ++ stage2.2 }

/-- Embeds `download_cover` (src lines 214-243) over the outcome of its fetch
and JSON decode. The body has no try/except, so the result is an `Except`: an
`Except.error` models an exception propagating out of `download_cover` to the
caller; `Except.ok u` models reaching `download_image` with `url = u` (the
`TITLE_URL` field), the only path on which a cover is delivered to the result
queue. -/
def download_cover (api_key : String) (identifiers : Option Dict)
    (jsonResp : Except Err (Option (List Dict))) : Except Err (Option String) :=
  let ids : Dict := identifiers.getD []
  match get_book_json_url api_key (some ids) with
  | none => Except.error Err.typeError
  | some _ =>
    match get_book_json jsonResp with
    | Except.error e => Except.error e
    | Except.ok book_json => Except.ok (dget book_json "TITLE_URL")

end NationalLibraryOfKoreaMetadataPlugin

/-! ## Helper lemmas -/

theorem truthy_some_getD {o : Option String} (h : truthy o = true) : some (o.getD "") = o := by
  cases o <;> simp [truthy] at h ⊢

theorem re_split_leading_delim {delims : List Char} {v : String} {c : Char} {cs : List Char}
    (hv : v.data = c :: cs) (hc : c ∈ delims) :
    re_split delims v = "" :: (splitAux delims cs []).map String.mk := by
  simp [re_split, hv, splitAux, hc]

theorem dget_nil (k : String) : dget [] k = none := rfl

theorem dget_cons (k a b : String) (t : Dict) :
    dget ((a, b) :: t) k = if a == k then some b else dget t k := by
  unfold dget
  rw [List.find?]
  cases h : a == k <;> simp [h]

theorem set_identifier_title (m : Metadata) (typ : String) (val : Option String) :
    (set_identifier m typ val).title = m.title := by
  unfold set_identifier; split <;> rfl

theorem set_identifier_authors (m : Metadata) (typ : String) (val : Option String) :
    (set_identifier m typ val).authors = m.authors := by
  unfold set_identifier; split <;> rfl

theorem set_identifier_publisher (m : Metadata) (typ : String) (val : Option String) :
    (set_identifier m typ val).publisher = m.publisher := by
  unfold set_identifier; split <;> rfl

theorem set_identifier_tags (m : Metadata) (typ : String) (val : Option String) :
    (set_identifier m typ val).tags = m.tags := by
  unfold set_identifier; split <;> rfl

theorem set_identifier_languages (m : Metadata) (typ : String) (val : Option String) :
    (set_identifier m typ val).languages = m.languages := by
  unfold set_identifier; split <;> rfl

theorem set_identifier_comments (m : Metadata) (typ : String) (val : Option String) :
    (set_identifier m typ val).comments = m.comments := by
  unfold set_identifier; split <;> rfl

open NationalLibraryOfKoreaMetadataPlugin

/-! ## Claim theorems -/

/-- C5: for every identifiers mapping that is `None` or has no `"isbn"` key
(equivalently, looking up `"isbn"` through the optional mapping gives `None`),
`get_isbn` returns `None` and both URL builders return `None`. -/
theorem no_isbn_all_none (api_key : String) (identifiers : Option Dict)
    (h : identifiers.bind (fun d => dget d "isbn") = none) :
    get_isbn identifiers = none ∧
    get_book_json_url api_key identifiers = none ∧
    get_book_url identifiers = none := by
  cases identifiers with
  | none => exact ⟨rfl, rfl, rfl⟩
  | some d =>
    simp only [Option.some_bind] at h
    exact ⟨by simp [get_isbn, h], by simp [get_book_json_url, h], by simp [get_book_url, h]⟩

/-- C5 witness: a mapping carrying only a doi key. -/
theorem no_isbn_all_none_witness :
    get_isbn (some [("doi", "x")]) = none ∧
    get_book_json_url "ABC123" (some [("doi", "x")]) = none ∧
    get_book_url (some [("doi", "x")]) = none :=
  no_isbn_all_none "ABC123" (some [("doi", "x")]) (by decide)

/-- C9: the `raise "book_url is None"` branch of `identify` is unreachable:
whenever `get_book_json_url` returned non-`None` for some identifiers,
`get_book_url` applied to the same identifiers is also non-`None`, both
builders being guarded by the same condition. -/
theorem book_url_branch_unreachable (api_key : String) (identifiers : Option Dict)
    (h : get_book_json_url api_key identifiers ≠ none) :
    get_book_url identifiers ≠ none := by
  cases identifiers with
  | none => simp [get_book_json_url] at h
  | some d =>
    cases hd : dget d "isbn" with
    | none => simp [get_book_json_url, hd] at h
    | some v => simp [get_book_url, hd]

/-- C9 witness: an identifiers mapping with an isbn entry. -/
theorem book_url_branch_unreachable_witness :
    get_book_url (some [("isbn", "9788936433598")]) ≠ none :=
  book_url_branch_unreachable "ABC123" (some [("isbn", "9788936433598")]) (by decide)

/-- C3 counterexample: the author pipeline applied to the raw string
`"김철수 (지은이),이영희 (옮김)"` does not yield `["김철수"]`: the literal strip of
`"지은이"` leaves the surrounding parentheses in place. -/
theorem author_pipeline_not_clean_name :
    author_pipeline "김철수 (지은이),이영희 (옮김)" ≠ ["김철수"] := by decide

/-- C3 amended: the author pipeline applied to `"김철수 (지은이),이영희 (옮김)"`
yields exactly `["김철수 ()"]` — the second entry is dropped for containing
`"옮김"`, and stripping the literal substring `"지은이"` from the first leaves
`"김철수 ()"` after the whitespace trim. -/
theorem author_pipeline_concrete :
    author_pipeline "김철수 (지은이),이영희 (옮김)" = ["김철수 ()"] := by decide

/-- C6: the tag pipeline applied to `"TAG:소설;TAG:한국문학"` yields exactly
`["소설", "한국문학"]`. -/
theorem tag_pipeline_concrete :
    tag_pipeline "TAG:소설;TAG:한국문학" = ["소설", "한국문학"] := by decide

/-- C7: the character-set left-trim of the literal `"https://doi.org/"` applied
to the detail-page DOI value `"https://doi.org/10.1234/abcd"` yields
`"10.1234/abcd"`, and an `identify` run whose detail page carries that DOI
value delivers one record whose doi identifier is exactly that string. -/
theorem doi_lstrip_and_identifier :
    pyLstrip "https://doi.org/10.1234/abcd" "https://doi.org/" = "10.1234/abcd" ∧
    ((identify (fun s => Except.ok s) "ABC123" (some [("isbn", "9788936433598")])
        (Except.ok (some [[("TITLE", "t")]]))
        (Except.ok [("DOI", "https://doi.org/10.1234/abcd")])).queue.map
      (fun m => dget m.identifiers "doi")) = [some "10.1234/abcd"] := by decide

/-- C4: the search-API URL built from isbn `9788936433598` and api key
`ABC123` is the fixed base followed by the five query parameters in the order
cert_key, result_style, page_no, page_size, isbn, and parsing that query
string back recovers the isbn and the key. -/
theorem search_api_url_order_and_roundtrip :
    get_book_json_url "ABC123" (some [("isbn", "9788936433598")]) =
      some ("isbn", "9788936433598",
        "https://www.nl.go.kr/seoji/SearchApi.do?cert_key=ABC123&result_style=json&page_no=1&page_size=1&isbn=9788936433598") ∧
    (parse_query (query_of
        "https://www.nl.go.kr/seoji/SearchApi.do?cert_key=ABC123&result_style=json&page_no=1&page_size=1&isbn=9788936433598")).map
      Prod.fst = ["cert_key", "result_style", "page_no", "page_size", "isbn"] ∧
    dget (parse_query (query_of
        "https://www.nl.go.kr/seoji/SearchApi.do?cert_key=ABC123&result_style=json&page_no=1&page_size=1&isbn=9788936433598"))
      "isbn" = some "9788936433598" ∧
    dget (parse_query (query_of
        "https://www.nl.go.kr/seoji/SearchApi.do?cert_key=ABC123&result_style=json&page_no=1&page_size=1&isbn=9788936433598"))
      "cert_key" = some "ABC123" := by decide

/-- C10: when the `"isbn"` value begins with a space or an open parenthesis,
`get_isbn` returns the empty string rather than `None`, and both URL builders
return their URL built over the empty isbn query value rather than `None`. -/
theorem leading_delim_isbn_empty (api_key : String) (d : Dict) (v : String)
    (c : Char) (cs : List Char)
    (hisbn : dget d "isbn" = some v) (hv : v.data = c :: cs)
    (hc : c = ' ' ∨ c = '(') :
    get_isbn (some d) = some "" ∧
    get_book_json_url api_key (some d) =
      some ("isbn", "",
        "https://www.nl.go.kr/seoji/SearchApi.do?" ++ get_book_json_query api_key "") ∧
    get_book_url (some d) =
      some ("isbn", "", "https://nl.go.kr/seoji/contents/S80100000000.do?" ++ get_book_query "") := by
  have hmem : c ∈ ['(', ' '] := by rcases hc with h | h <;> simp [h]
  have h0 : get_isbn (some d) = some "" := by
    simp [get_isbn, hisbn, re_split_leading_delim hv hmem]
  exact ⟨h0, by simp [get_book_json_url, hisbn, h0], by simp [get_book_url, hisbn, h0]⟩

/-- C10 witness: an isbn value starting with a space. -/
theorem leading_delim_isbn_empty_witness :
    get_isbn (some [("isbn", " 9788936433598")]) = some "" ∧
    get_book_json_url "ABC123" (some [("isbn", " 9788936433598")]) =
      some ("isbn", "",
        "https://www.nl.go.kr/seoji/SearchApi.do?" ++ get_book_json_query "ABC123" "") ∧
    get_book_url (some [("isbn", " 9788936433598")]) =
      some ("isbn", "", "https://nl.go.kr/seoji/contents/S80100000000.do?" ++ get_book_query "") :=
  leading_delim_isbn_empty "ABC123" [("isbn", " 9788936433598")] " 9788936433598"
    ' ' "9788936433598".data (by decide) rfl (Or.inl rfl)

/-- C1: when Stage 1 succeeds (the identifiers carry an isbn entry and the
decoded search response has a non-empty docs array) but the detail stage
raises (any error `e` from its fetch or parse), `identify` still delivers
exactly one record, carrying the Stage-1 fields computed from the JSON record
— title, authors (through the author pipeline), publisher, isbn identifier —
while tags, the doi identifier, languages and comments are all unset. -/
theorem identify_stage2_failure_keeps_stage1
    (strptime : String → Except Unit String) (api_key : String) (d : Dict) (v : String)
    (record : Dict) (rest : List Dict) (e : Err)
    (hisbn : dget d "isbn" = some v) :
    ∃ m : Metadata,
      (identify strptime api_key (some d) (Except.ok (some (record :: rest)))
        (Except.error e)).queue = [m] ∧
      m.title = dget record "TITLE" ∧
      m.authors = (if truthy (dget record "AUTHOR") then
          some (author_pipeline ((dget record "AUTHOR").getD "")) else none) ∧
      m.publisher = dget record "PUBLISHER" ∧
      dget m.identifiers "isbn" =
        (if truthy (dget record "EA_ISBN") then dget record "EA_ISBN" else none) ∧
      m.tags = none ∧
      dget m.identifiers "doi" = none ∧
      m.languages = none ∧
      m.comments = none := by
  simp only [identify, get_book_json_url, get_book_url, get_book_json,
    clean_downloaded_metadata, Option.getD_some, hisbn]
  refine ⟨_, rfl, ?_, ?_, ?_, ?_, ?_, ?_, ?_, ?_⟩
  · simp [set_identifier_title]
  · simp [set_identifier_authors]
  · simp [set_identifier_publisher]
  · by_cases h1 : truthy (dget record "EA_ISBN") = true <;>
      by_cases h2 : truthy (dget record "EA_ADD_CODE") = true <;>
        simp [set_identifier, h1, h2, dget_cons, dget_nil, truthy_some_getD]
  · simp [set_identifier_tags]
  · by_cases h1 : truthy (dget record "EA_ISBN") = true <;>
      by_cases h2 : truthy (dget record "EA_ADD_CODE") = true <;>
        simp [set_identifier, h1, h2, dget_cons, dget_nil]
  · simp [set_identifier_languages]
  · simp [set_identifier_comments]

/-- C1 witness: a concrete run whose detail fetch raises. -/
theorem identify_stage2_failure_keeps_stage1_witness :
    ∃ m : Metadata,
      (identify (fun s => Except.ok s) "ABC123" (some [("isbn", "9788936433598")])
        (Except.ok (some [[("TITLE", "t"), ("AUTHOR", "김철수 (지은이)"),
          ("PUBLISHER", "p"), ("EA_ISBN", "9788936433598")]]))
        (Except.error (Err.ext "fetch failed"))).queue = [m] ∧
      m.title = dget [("TITLE", "t"), ("AUTHOR", "김철수 (지은이)"),
          ("PUBLISHER", "p"), ("EA_ISBN", "9788936433598")] "TITLE" ∧
      m.authors = (if truthy (dget [("TITLE", "t"), ("AUTHOR", "김철수 (지은이)"),
          ("PUBLISHER", "p"), ("EA_ISBN", "9788936433598")] "AUTHOR") then
          some (author_pipeline ((dget [("TITLE", "t"), ("AUTHOR", "김철수 (지은이)"),
            ("PUBLISHER", "p"), ("EA_ISBN", "9788936433598")] "AUTHOR").getD "")) else none) ∧
      m.publisher = dget [("TITLE", "t"), ("AUTHOR", "김철수 (지은이)"),
          ("PUBLISHER", "p"), ("EA_ISBN", "9788936433598")] "PUBLISHER" ∧
      dget m.identifiers "isbn" =
        (if truthy (dget [("TITLE", "t"), ("AUTHOR", "김철수 (지은이)"),
            ("PUBLISHER", "p"), ("EA_ISBN", "9788936433598")] "EA_ISBN") then
          dget [("TITLE", "t"), ("AUTHOR", "김철수 (지은이)"),
            ("PUBLISHER", "p"), ("EA_ISBN", "9788936433598")] "EA_ISBN" else none) ∧
      m.tags = none ∧
      dget m.identifiers "doi" = none ∧
      m.languages = none ∧
      m.comments = none :=
  identify_stage2_failure_keeps_stage1 (fun s => Except.ok s) "ABC123"
    [("isbn", "9788936433598")] "9788936433598"
    [("TITLE", "t"), ("AUTHOR", "김철수 (지은이)"), ("PUBLISHER", "p"),
      ("EA_ISBN", "9788936433598")] [] (Err.ext "fetch failed") (by decide)

/-- C2: when the identifiers carry an isbn entry (so the search fetch runs)
and the response decodes to JSON whose docs array is absent or empty,
`identify` delivers nothing to the result queue and logs exactly the one
raised error (`TypeError` for an absent array, `IndexError` for an empty one);
`identify` being a total function, no exception reaches the caller. -/
theorem identify_empty_docs_no_result
    (strptime : String → Except Unit String) (api_key : String) (d : Dict) (v : String)
    (docs : Option (List Dict)) (detailResp : Except Err Dict)
    (hisbn : dget d "isbn" = some v)
    (hdocs : docs = none ∨ docs = some []) :
    (identify strptime api_key (some d) (Except.ok docs) detailResp).queue = [] ∧
    ((identify strptime api_key (some d) (Except.ok docs) detailResp).logged = [Err.typeError] ∨
      (identify strptime api_key (some d) (Except.ok docs) detailResp).logged = [Err.indexError]) := by
  rcases hdocs with h | h <;> subst h <;>
    simp [identify, get_book_json_url, get_book_json, hisbn]

/-- C2 witness: a concrete run with an absent docs array. -/
theorem identify_empty_docs_no_result_witness :
    (identify (fun s => Except.ok s) "ABC123" (some [("isbn", "9788936433598")])
      (Except.ok none) (Except.ok [])).queue = [] ∧
    ((identify (fun s => Except.ok s) "ABC123" (some [("isbn", "9788936433598")])
      (Except.ok none) (Except.ok [])).logged = [Err.typeError] ∨
      (identify (fun s => Except.ok s) "ABC123" (some [("isbn", "9788936433598")])
        (Except.ok none) (Except.ok [])).logged = [Err.indexError]) :=
  identify_empty_docs_no_result (fun s => Except.ok s) "ABC123"
    [("isbn", "9788936433598")] "9788936433598" none (Except.ok []) (by decide) (Or.inl rfl)

/-- C8: `download_cover` contains no exception handling: for every failure —
no usable isbn entry (the URL builder returns `None` and subscripting it
raises), a fetch or JSON-decode error, an absent docs array, or an empty docs
array — the exception propagates out of `download_cover` (the result is an
`Except.error`), so `download_image` is never reached and no cover is
delivered to the result queue. -/
theorem download_cover_propagates (api_key : String) (identifiers : Option Dict)
    (jsonResp : Except Err (Option (List Dict)))
    (h : dget (identifiers.getD []) "isbn" = none ∨ (∃ e, jsonResp = Except.error e) ∨
      jsonResp = Except.ok none ∨ jsonResp = Except.ok (some [])) :
    ∃ e, download_cover api_key identifiers jsonResp = Except.error e := by
  cases hb : get_book_json_url api_key (some (identifiers.getD [])) with
  | none => exact ⟨Err.typeError, by simp [download_cover, hb]⟩
  | some t =>
    rcases h with h | ⟨e, he⟩ | he | he
    · simp [get_book_json_url, h] at hb
    · exact ⟨e, by simp [download_cover, hb, he, get_book_json]⟩
    · exact ⟨Err.typeError, by simp [download_cover, hb, he, get_book_json]⟩
    · exact ⟨Err.indexError, by simp [download_cover, hb, he, get_book_json]⟩

/-- C8 witness: identifiers without an isbn entry. -/
theorem download_cover_propagates_witness :
    ∃ e, download_cover "ABC123" (some [("doi", "x")])
      (Except.ok (some [[("TITLE_URL", "u")]])) = Except.error e :=
  download_cover_propagates "ABC123" (some [("doi", "x")])
    (Except.ok (some [[("TITLE_URL", "u")]])) (Or.inl (by decide))
